import Mathlib

/-
Shallow embedding of the authenticated HTTP session layer of the
ExpoMoney repository (src/src/services/api.ts and the login handler of
src/src/screens/Login.tsx).

AsyncStorage holds two keys, `@access_token` and `@refresh_token`; we
model it as a record of two optional strings.  The axios instance `api`
has a request interceptor (attach a bearer header when an access token
is stored) and a response interceptor (on a 401 whose config has no
`_retry` flag, set the flag, call `refreshAuthToken`, and retry the
original request once; on refresh failure remove both storage keys and
reject with the thrown refresh error; every other error is passed
through unchanged).

The network is abstracted by an environment: `server` answers the
original request given the Authorization header value that was sent,
and the refresh endpoint answers the `POST auth/refresh/` exchange.

Two embeddings of the refresh call are given.  The first-cycle model
(`refreshAuthToken`, `execute`) treats the awaited refresh post as one
exchange that returns the new token or throws; it is exact for every
run in which the refresh response is not itself a 401.  The re-entrant
model (`refreshAuthTokenF`, `executeF`) is the full semantics: the
refresh post travels through the same axios instance, so a 401 refresh
response re-enters the response interceptor and starts a nested
refresh cycle inside the refresh call's await — including the nested
catch's `multiRemove` store write and, against a backend that answers
every refresh call with 401, recursion without bound, represented by a
fuel parameter (`none` = the run does not resolve within the given
nesting depth).
-/

namespace ExpoMoney

/-- The durable credential store: AsyncStorage restricted to the two
keys the session layer uses. -/
structure Store where
  accessToken : Option String
  refreshToken : Option String
deriving DecidableEq, Repr

/-- The store with both keys absent, as after
`AsyncStorage.multiRemove(['@access_token', '@refresh_token'])`. -/
def emptyStore : Store := ⟨none, none⟩

/-- Result of an HTTP call as the response interceptor sees it: a
success payload or an axios error carrying `error.response.status`. -/
inductive HttpResult where
  | ok (payload : String)
  | err (status : Nat)
deriving DecidableEq, Repr

/-- The outcome a caller observes for one logical request.
`errResp st` is a rejection with the axios error of status `st`;
`thrown msg` is a rejection with a thrown `Error(msg)` (the
`refreshError` path).  `sessionExpired` is modelled from the spec: the
design document's distinct `SessionExpired` outcome; the source code
never constructs such a value, which is exactly what several claims
turn on. -/
inductive Outcome where
  | ok (payload : String)
  | errResp (status : Nat)
  | thrown (msg : String)
  | sessionExpired
deriving DecidableEq, Repr

/-- An axios request config, reduced to the one header the session
layer manipulates. -/
structure Config where
  authorization : Option String
deriving DecidableEq, Repr

/-- The network environment: `server` answers the original request
given the Authorization header value sent with it; `refreshServer`
answers `POST auth/refresh/` given the refresh token in the body,
returning the new access token or the message of the error the awaited
call throws. -/
structure Env where
  server : Option String → HttpResult
  refreshServer : String → Except String String

/-- The request interceptor (api.ts lines 45-51): read `@access_token`
from storage; when present, set `config.headers.Authorization` to
`Bearer <token>`; when absent, leave the config untouched and let the
request proceed. -/
def requestInterceptor (s : Store) (c : Config) : Config :=
  match s.accessToken with
  | some t => { c with authorization := some ("Bearer " ++ t) }
  | none => c

/-- The Authorization header value a fresh request is sent with. -/
def authHeader (s : Store) : Option String :=
  (requestInterceptor s ⟨none⟩).authorization

/-- Result of `refreshAuthToken`: the value returned or the error
thrown, the storage state afterwards, and the number of refresh
network calls performed. -/
structure RefreshResult where
  result : Except String String
  store : Store
  netCalls : Nat
deriving Repr

/-- `refreshAuthToken` (api.ts lines 36-43) in the first-cycle model:
read `@refresh_token`; when absent throw
`Error('No refresh token available')` without any network call;
otherwise `POST auth/refresh/` with it; when the post throws,
propagate the error (the subsequent `setItem` never runs); when it
succeeds, write the new access token to `@access_token` and return it.
This model collapses the awaited post to a single exchange; the
re-entry of the response interceptor on a 401 refresh response is
covered by `refreshAuthTokenF` below. -/
def refreshAuthToken (rs : String → Except String String) (s : Store) :
    RefreshResult :=
  match s.refreshToken with
  | none => ⟨.error "No refresh token available", s, 0⟩
  | some rt =>
    match rs rt with
    | .error e => ⟨.error e, s, 1⟩
    | .ok newTok => ⟨.ok newTok, { s with accessToken := some newTok }, 1⟩

/-- Result of running one request (or one response-error handler):
the caller-visible outcome, the storage state afterwards, and the
number of refresh network calls made along the way. -/
structure RunResult where
  outcome : Outcome
  store : Store
  refreshCalls : Nat
deriving DecidableEq, Repr

/-- The re-issued original request (`return api(originalRequest)`,
api.ts line 64): it passes through the request interceptor again,
which re-reads the access token just stored by `refreshAuthToken` and
overwrites the Authorization header, and through the response
interceptor again with `_retry` now set, so a second rejection of any
status is passed through unchanged.  `k` is the number of refresh
network calls already made on this request's path. -/
def retriedResult (env : Env) (s1 : Store) (k : Nat) : RunResult :=
  match env.server (authHeader s1) with
  | .ok p => ⟨.ok p, s1, k⟩
  | .err st2 => ⟨.errResp st2, s1, k⟩

/-- The `try` block of the response interceptor (api.ts lines 61-69):
call `refreshAuthToken` and retry the original request with the new
token; when `refreshAuthToken` throws, remove both storage keys
(`multiRemove`) and reject with the thrown refresh error. -/
def refreshAndRetry (env : Env) (s : Store) : RunResult :=
  match refreshAuthToken env.refreshServer s with
  | ⟨.error msg, _, k⟩ => ⟨.thrown msg, emptyStore, k⟩
  | ⟨.ok _, s1, k⟩ => retriedResult env s1 k

/-- The response interceptor's error handler (api.ts lines 55-73),
entered when a request rejected with status `status` while the request
config's `_retry` flag is `retryFlag`: when the status is 401 and
`_retry` is unset, set `_retry` and run the refresh-and-retry block;
every other rejection is passed through unchanged. -/
def responseErrorInterceptor (env : Env) (s : Store) (status : Nat)
    (retryFlag : Bool) : RunResult :=
  if status = 401 ∧ retryFlag = false then refreshAndRetry env s
  else ⟨.errResp status, s, 0⟩

/-- One logical request issued from scratch: the request interceptor
attaches the stored token, the server answers, and a rejection goes to
the response interceptor's error handler with `_retry` unset. -/
def execute (env : Env) (s : Store) : RunResult :=
  match env.server (authHeader s) with
  | .ok p => ⟨.ok p, s, 0⟩
  | .err st => responseErrorInterceptor env s st false

/-- N requests that have each already failed with a 401 while their
config's `_retry` flag is unset (the concurrent-failure premise): the
source has no coordination between their error handlers, so each
handler runs `refreshAuthToken` on its own; we serialize the handlers
over the evolving store and count the refresh network calls they make
in total. -/
def runHandlers (env : Env) (s : Store) : Nat → List Outcome × Store × Nat
  | 0 => ([], s, 0)
  | n + 1 =>
    let r := responseErrorInterceptor env s 401 false
    let rest := runHandlers env r.store n
    (r.outcome :: rest.1, rest.2.1, r.refreshCalls + rest.2.2)

/-- `handleLogin` (Login.tsx lines 24-32) after a successful
`login(username, password)` call returning `data`: the only storage
write is `AsyncStorage.setItem('@access_token', data.access)`; the
`login` function itself (api.ts lines 76-79) performs no storage
writes.  `access` and `refresh` are the fields of the login
response body. -/
structure LoginData where
  access : String
  refresh : String
deriving DecidableEq, Repr

/-- The storage effect of a successful login through `handleLogin`. -/
def handleLogin (d : LoginData) (s : Store) : Store :=
  { s with accessToken := some d.access }

/-- `AuthService.logout` (api.ts lines 96-98): its only effect is
`AsyncStorage.removeItem('@access_token')`. -/
def logout (s : Store) : Store :=
  { s with accessToken := none }

/-- A refresh endpoint that always succeeds, answering refresh token
`rt` with the fresh access token `rt ++ "A"`. -/
def refreshOk : String → Except String String := fun rt => .ok (rt ++ "A")

/-- Environment in which the API server accepts every request and the
refresh endpoint works. -/
def retryOkEnv : Env := ⟨fun _ => .ok "p", refreshOk⟩

/-- Environment in which the API server rejects every request with
401, while the refresh endpoint works: a backend that always rejects
even freshly refreshed tokens. -/
def always401Env : Env := ⟨fun _ => .err 401, refreshOk⟩

/-- Environment in which the API server rejects every request with 401
and the refresh endpoint itself fails. -/
def refreshDownEnv : Env :=
  ⟨fun _ => .err 401, fun _ => .error "Request failed with status code 400"⟩

/-- Environment in which the API server rejects every request with a
non-auth error (HTTP 500). -/
def err500Env : Env := ⟨fun _ => .err 500, refreshOk⟩

/-- Environment in which the API server accepts anonymous requests. -/
def anonOkEnv : Env := ⟨fun _ => .ok "anon", refreshOk⟩

/-- A store holding both tokens, as after a fully seeded session. -/
def seededStore : Store := ⟨some "a", some "r"⟩

/-- A JavaScript error value as the interceptors pass it around:
either an axios error carrying `error.response.status`, or a thrown
`Error` with its message. -/
inductive JsError where
  | axios (status : Nat)
  | js (msg : String)
deriving DecidableEq, Repr

/-- Settlement of one awaited refresh call in the re-entrant model:
the payload returned or the rejection value thrown, the storage state
afterwards, and the total number of refresh network calls made so far
in the run. -/
structure PostOut where
  result : Except JsError String
  store : Store
  calls : Nat
deriving Repr

/-- The network in the re-entrant model: `server` answers the original
data request given its Authorization header; `refreshServer i rt`
answers the i-th refresh network call of the run (counted from 0)
given the refresh token in the body — indexing by call number lets the
endpoint answer successive calls differently, as a real network can. -/
structure NetEnv where
  server : Option String → HttpResult
  refreshServer : Nat → String → HttpResult

/-- The replay of a refresh post whose config already carries
`_retry`: the response interceptor passes any rejection of it through,
so the settlement is the network answer itself, as payload or axios
error. -/
def refreshPostRetried (env : NetEnv) (s : Store) (rt : String)
    (calls : Nat) : PostOut :=
  match env.refreshServer calls rt with
  | .ok a => ⟨.ok a, s, calls + 1⟩
  | .err st => ⟨.error (.axios st), s, calls + 1⟩

/-- `refreshAuthToken` in the re-entrant model: the refresh post
travels through the same axios instance, so a 401 refresh response
re-enters the response interceptor, which sets `_retry` on the refresh
config, runs a nested `refreshAuthToken`, and replays the refresh post
once; the nested failure path multiRemoves both keys inside this
call's await before rejecting with the nested refresh error.  `fuel`
bounds the nesting depth: `none` means the run does not resolve within
it (against a backend answering every refresh call with 401 the source
recurses without bound). -/
def refreshAuthTokenF : Nat → NetEnv → Store → Nat → Option PostOut
  | 0, _, _, _ => none
  | fuel + 1, env, s, calls =>
    match s.refreshToken with
    | none => some ⟨.error (.js "No refresh token available"), s, calls⟩
    | some rt =>
      match env.refreshServer calls rt with
      | .ok newTok =>
        some ⟨.ok newTok, { s with accessToken := some newTok }, calls + 1⟩
      | .err st =>
        if st = 401 then
          match refreshAuthTokenF fuel env s (calls + 1) with
          | none => none
          | some ⟨.error e, _, calls2⟩ => some ⟨.error e, emptyStore, calls2⟩
          | some ⟨.ok _, s2, calls2⟩ =>
            match refreshPostRetried env s2 rt calls2 with
            | ⟨.ok newTok, s3, calls3⟩ =>
              some ⟨.ok newTok, { s3 with accessToken := some newTok }, calls3⟩
            | ⟨.error e, s3, calls3⟩ => some ⟨.error e, s3, calls3⟩
        else
          some ⟨.error (.axios st), s, calls + 1⟩

/-- The caller-visible result of one original request in the
re-entrant model: outcome, storage state, number of refresh network
calls made, and how often the original request itself reached the
server. -/
structure RunOut where
  outcome : Outcome
  store : Store
  refreshCalls : Nat
  serverCalls : Nat
deriving DecidableEq, Repr

/-- The rejection value of the original request as the caller sees
it. -/
def jsErrorOutcome : JsError → Outcome
  | .axios st => .errResp st
  | .js m => .thrown m

/-- One original request from scratch in the re-entrant model: the
request interceptor attaches the stored token; a 401 with `_retry`
unset runs the refresh and replays the request once (a second
rejection passes through, `_retry` now set); a refresh failure
multiRemoves both keys and rejects with the refresh error; any non-401
rejection passes through. -/
def executeF (fuel : Nat) (env : NetEnv) (s : Store) : Option RunOut :=
  match env.server (authHeader s) with
  | .ok p => some ⟨.ok p, s, 0, 1⟩
  | .err st =>
    if st = 401 then
      match refreshAuthTokenF fuel env s 0 with
      | none => none
      | some ⟨.error e, _, k⟩ => some ⟨jsErrorOutcome e, emptyStore, k, 1⟩
      | some ⟨.ok _, s1, k⟩ =>
        match env.server (authHeader s1) with
        | .ok p => some ⟨.ok p, s1, k, 2⟩
        | .err st2 => some ⟨.errResp st2, s1, k, 2⟩
    else
      some ⟨.errResp st, s, 0, 1⟩

/-- The number of times the original request reached the server, also
for a run that did not resolve. -/
def serverCallsOf : Option RunOut → Nat
  | none => 0
  | some r => r.serverCalls

/-- Re-entrant environment: the API server rejects every request with
401; the refresh endpoint answers every call successfully. -/
def f401Env : NetEnv := ⟨fun _ => .err 401, fun _ rt => .ok (rt ++ "A")⟩

/-- Re-entrant environment whose refresh endpoint rejects its first
call with 401 and accepts later ones, and whose API server accepts
exactly the refreshed bearer token: it exercises the nested re-entry
of the response interceptor on the refresh request itself. -/
def nestedRefreshEnv : NetEnv :=
  ⟨fun h => if h = some ("Bearer " ++ ("r" ++ "A")) then .ok "p"
            else .err 401,
   fun i rt => if i = 0 then .err 401 else .ok (rt ++ "A")⟩

/-- Equation lemma: with no refresh token stored, `refreshAuthToken`
throws before any network call and writes nothing. -/
theorem refreshAuthToken_none (rs : String → Except String String)
    (a : Option String) :
    refreshAuthToken rs ⟨a, none⟩ =
      ⟨.error "No refresh token available", ⟨a, none⟩, 0⟩ := rfl

/-- Equation lemma: when the refresh post throws, `refreshAuthToken`
propagates the error after one network call, writing nothing. -/
theorem refreshAuthToken_err (rs : String → Except String String)
    (a : Option String) (rt m : String) (h : rs rt = .error m) :
    refreshAuthToken rs ⟨a, some rt⟩ = ⟨.error m, ⟨a, some rt⟩, 1⟩ := by
  unfold refreshAuthToken
  simp [h]

/-- Equation lemma: when the refresh post succeeds, `refreshAuthToken`
stores the new access token and returns it after one network call. -/
theorem refreshAuthToken_ok (rs : String → Except String String)
    (a : Option String) (rt tok : String) (h : rs rt = .ok tok) :
    refreshAuthToken rs ⟨a, some rt⟩ = ⟨.ok tok, ⟨some tok, some rt⟩, 1⟩ := by
  unfold refreshAuthToken
  simp [h]

/-- Equation lemma: the header sent when an access token is stored. -/
theorem authHeader_some (t : String) (rfT : Option String) :
    authHeader ⟨some t, rfT⟩ = some ("Bearer " ++ t) := rfl

/-- Equation lemma: the header sent when no access token is stored. -/
theorem authHeader_none (rfT : Option String) :
    authHeader ⟨none, rfT⟩ = none := rfl

/-- Equation lemma: a request the server accepts returns directly. -/
theorem execute_ok (env : Env) (s : Store) (p : String)
    (h : env.server (authHeader s) = .ok p) :
    execute env s = ⟨.ok p, s, 0⟩ := by
  unfold execute
  simp [h]

/-- Equation lemma: a rejected request enters the response error
handler with `_retry` unset. -/
theorem execute_err (env : Env) (s : Store) (st : Nat)
    (h : env.server (authHeader s) = .err st) :
    execute env s = responseErrorInterceptor env s st false := by
  unfold execute
  simp [h]

/-- Equation lemma: a first 401 enters the refresh-and-retry block. -/
theorem responseErrorInterceptor_401 (env : Env) (s : Store) :
    responseErrorInterceptor env s 401 false = refreshAndRetry env s := by
  unfold responseErrorInterceptor
  simp

/-- Equation lemma: every other rejection is passed through. -/
theorem responseErrorInterceptor_pass (env : Env) (s : Store) (status : Nat)
    (retryFlag : Bool) (h : ¬(status = 401 ∧ retryFlag = false)) :
    responseErrorInterceptor env s status retryFlag =
      ⟨.errResp status, s, 0⟩ := by
  unfold responseErrorInterceptor
  rw [if_neg h]

/-- Helper: in `retryOkEnv`, every handler run over a store whose
refresh token is `"r"` performs exactly one refresh network call and
leaves the refresh token in place, so `n` handlers perform `n` calls
in total. -/
theorem runHandlers_retryOkEnv_count (n : Nat) (a : Option String) :
    (runHandlers retryOkEnv ⟨a, some "r"⟩ n).2.2 = n := by
  induction n generalizing a with
  | zero => rfl
  | succ n ih =>
    have h : responseErrorInterceptor retryOkEnv ⟨a, some "r"⟩ 401 false =
        ⟨.ok "p", ⟨some ("r" ++ "A"), some "r"⟩, 1⟩ := rfl
    simp only [runHandlers, h]
    rw [ih (some ("r" ++ "A"))]
    omega

/-- C1: the claim states that N requests failing concurrently with 401
in the Idle state produce exactly one token-refresh call
(single-flight).  The source has no Idle/Refreshing gate at all: each
401 handler independently invokes `refreshAuthToken`, so N failed
requests produce N refresh network calls — already 2 calls for N = 2,
contradicting "exactly one". -/
theorem c1_per_request_refresh_no_single_flight (n : Nat) :
    (runHandlers retryOkEnv seededStore n).2.2 = n :=
  runHandlers_retryOkEnv_count n (some "a")

/-- Observation lemma for the re-entrant model: the response
interceptor really does re-enter on the refresh request itself — when
the refresh endpoint rejects its first call with 401 and accepts later
ones, a single original request makes three refresh network calls
(first post, nested post, replayed post) inside one refresh cycle and
still resolves, replaying the original request exactly once. -/
theorem executeF_reentry_three_refresh_calls :
    executeF 2 nestedRefreshEnv seededStore =
      some ⟨.ok "p", ⟨some ("r" ++ "A"), some "r"⟩, 3, 2⟩ := rfl

/-- C2 counterexample: in the re-entrant model, against a backend that
rejects the retried request with 401 again, the caller receives the
raw 401 axios error, not a distinct SessionExpired outcome as the
claim states. -/
theorem c2_retried_401_raw_error :
    executeF 1 f401Env seededStore =
      some ⟨.errResp 401, ⟨some ("r" ++ "A"), some "r"⟩, 1, 2⟩ ∧
    (Outcome.errResp 401 ≠ .sessionExpired) :=
  ⟨rfl, by decide⟩

/-- C2 amended, proved on the re-entrant model: the original request
reaches the server at most twice (it is retried at most once), and
when the refresh cycle resolves successfully but the retried call
returns 401 again, the raw 401 error is surfaced to the caller
unchanged and no second refresh cycle is started — the run ends with
exactly the refresh calls of the one completed cycle and exactly two
server calls. -/
theorem c2_single_retry (fuel : Nat) (env : NetEnv) (s : Store) :
    serverCallsOf (executeF fuel env s) ≤ 2 ∧
    (∀ tok s1 k, env.server (authHeader s) = .err 401 →
      refreshAuthTokenF fuel env s 0 = some ⟨.ok tok, s1, k⟩ →
      env.server (authHeader s1) = .err 401 →
      executeF fuel env s = some ⟨.errResp 401, s1, k, 2⟩) := by
  constructor
  · rcases h1 : env.server (authHeader s) with p | st
    · simp [executeF, serverCallsOf, h1]
    · by_cases h401 : st = 401
      · subst h401
        rcases h2 : refreshAuthTokenF fuel env s 0 with _ | ⟨res, s1, k⟩
        · simp [executeF, serverCallsOf, h1, h2]
        · cases res with
          | error e => simp [executeF, serverCallsOf, h1, h2]
          | ok tok =>
            rcases h3 : env.server (authHeader s1) with p2 | st2 <;>
              simp [executeF, serverCallsOf, h1, h2, h3]
      · simp [executeF, serverCallsOf, h1, h401]
  · intro tok s1 k hold hr hretry
    simp [executeF, hold, hr, hretry]

/-- C2 witness: the amended theorem applied to the always-rejecting
backend with a fully seeded store. -/
theorem c2_single_retry_witness :
    serverCallsOf (executeF 1 f401Env seededStore) ≤ 2 ∧
    executeF 1 f401Env seededStore =
      some ⟨.errResp 401, ⟨some ("r" ++ "A"), some "r"⟩, 1, 2⟩ :=
  ⟨(c2_single_retry 1 f401Env seededStore).1,
    (c2_single_retry 1 f401Env seededStore).2 ("r" ++ "A")
      ⟨some ("r" ++ "A"), some "r"⟩ 1 rfl rfl rfl⟩

/-- C3 counterexample: a 401 whose refresh attempt fails resolves with
the thrown refresh error, not a distinct SessionExpired outcome as the
claim states (the clearing half of the claim does hold). -/
theorem c3_refresh_failure_is_not_sessionExpired :
    (execute refreshDownEnv seededStore).outcome =
      .thrown "Request failed with status code 400" ∧
    (execute refreshDownEnv seededStore).outcome ≠ .sessionExpired ∧
    (execute refreshDownEnv seededStore).store = emptyStore := by
  refine ⟨by decide, by decide, by decide⟩

/-- C3 amended: for every request whose 401 triggers a refresh attempt
that fails, the request resolves with the thrown refresh error and the
session is fully cleared — both tokens absent in the durable store. -/
theorem c3_refresh_failure_clears_session (env : Env) (s : Store)
    (m : String) (hold : env.server (authHeader s) = .err 401)
    (herr : (refreshAuthToken env.refreshServer s).result = .error m) :
    (execute env s).outcome = .thrown m ∧
    (execute env s).store = emptyStore := by
  rw [execute_err env s 401 hold, responseErrorInterceptor_401]
  unfold refreshAndRetry
  rcases hr : refreshAuthToken env.refreshServer s with ⟨res, s2, k⟩
  rw [hr] at herr
  change res = .error m at herr
  subst herr
  exact ⟨rfl, rfl⟩

/-- C3 witness: the amended theorem applied to the environment whose
refresh endpoint is down, with a fully seeded store. -/
theorem c3_refresh_failure_clears_session_witness :
    (execute refreshDownEnv seededStore).outcome =
      .thrown "Request failed with status code 400" ∧
    (execute refreshDownEnv seededStore).store = emptyStore :=
  c3_refresh_failure_clears_session refreshDownEnv seededStore
    "Request failed with status code 400" rfl rfl

/-- C4: every rejection with a status other than 401 is passed through
to the caller unchanged — same error, untouched store, and no refresh
network call. -/
theorem c4_non_auth_errors_pass_through (env : Env) (s : Store) (st : Nat)
    (h : env.server (authHeader s) = .err st) (hne : st ≠ 401) :
    execute env s = ⟨.errResp st, s, 0⟩ := by
  rw [execute_err env s st h]
  exact responseErrorInterceptor_pass env s st false (fun hc => hne hc.1)

/-- C4 witness: a 500 from the server reaches the caller unchanged
with no refresh attempted. -/
theorem c4_non_auth_errors_pass_through_witness :
    execute err500Env seededStore = ⟨.errResp 500, seededStore, 0⟩ :=
  c4_non_auth_errors_pass_through err500Env seededStore 500 rfl
    (by decide)

/-- C5 counterexample: in the re-entrant model, `refreshAuthToken` is
not free of store side effects — on a successful refresh it overwrites
the stored access token itself (api.ts line 41), so the store after
the call differs from the store before it. -/
theorem c5_refresh_writes_store :
    refreshAuthTokenF 1 f401Env ⟨some "old", some "r"⟩ 0 =
      some ⟨.ok ("r" ++ "A"), ⟨some ("r" ++ "A"), some "r"⟩, 1⟩ ∧
    ((⟨some ("r" ++ "A"), some "r"⟩ : Store) ≠ ⟨some "old", some "r"⟩) :=
  ⟨rfl, by decide⟩

/-- C5 amended, proved on the re-entrant model: the token-refresh
operation does write to the durable credential store — whenever it
returns successfully, it has itself persisted the returned access
token; no session manager performs that mutation for it. -/
theorem c5_refresh_success_writes_access (fuel : Nat) (env : NetEnv)
    (s : Store) (calls : Nat) (out : PostOut) (tok : String)
    (h : refreshAuthTokenF fuel env s calls = some out)
    (hok : out.result = .ok tok) :
    out.store.accessToken = some tok := by
  obtain ⟨a, rfT⟩ := s
  cases fuel with
  | zero => simp [refreshAuthTokenF] at h
  | succ fuel =>
    cases rfT with
    | none =>
      simp only [refreshAuthTokenF] at h
      injection h with h
      subst h
      simp at hok
    | some rt =>
      simp only [refreshAuthTokenF] at h
      rcases h0 : env.refreshServer calls rt with newTok | st
      · simp only [h0] at h
        injection h with h
        subst h
        have htok : newTok = tok := by simpa using hok
        subst htok
        rfl
      · simp only [h0] at h
        by_cases h401 : st = 401
        · subst h401
          rw [if_pos rfl] at h
          rcases hn : refreshAuthTokenF fuel env ⟨a, some rt⟩ (calls + 1)
            with _ | ⟨res2, s2, k2⟩
          · simp [hn] at h
          · simp only [hn] at h
            cases res2 with
            | error e =>
              injection h with h
              subst h
              simp at hok
            | ok t2 =>
              rcases hp : refreshPostRetried env s2 rt k2 with ⟨res3, s3, k3⟩
              simp only [hp] at h
              cases res3 with
              | error e3 =>
                injection h with h
                subst h
                simp at hok
              | ok a3 =>
                injection h with h
                subst h
                have htok : a3 = tok := by simpa using hok
                subst htok
                rfl
        · rw [if_neg h401] at h
          injection h with h
          subst h
          simp at hok

/-- C5 witness: the amended theorem applied to a working refresh
endpoint starting from a store holding an old access token. -/
theorem c5_refresh_success_writes_access_witness :
    ((⟨.ok ("r" ++ "A"), ⟨some ("r" ++ "A"), some "r"⟩, 1⟩ :
      PostOut)).store.accessToken = some ("r" ++ "A") :=
  c5_refresh_success_writes_access 1 f401Env ⟨some "old", some "r"⟩ 0
    ⟨.ok ("r" ++ "A"), ⟨some ("r" ++ "A"), some "r"⟩, 1⟩ ("r" ++ "A")
    rfl rfl

/-- C6: the claim states a successful login persists both tokens.  The
code persists only the access token: `handleLogin` stores
`data.access` and never writes `@refresh_token` (Login.tsx line 27),
so after a login into an empty store the refresh token is absent and
every later `refreshAuthToken` call throws before reaching the
network. -/
theorem c6_login_persists_only_access_token
    (rs : String → Except String String) :
    handleLogin ⟨"acc", "ref"⟩ emptyStore = ⟨some "acc", none⟩ ∧
    (refreshAuthToken rs (handleLogin ⟨"acc", "ref"⟩ emptyStore)).result =
      .error "No refresh token available" :=
  ⟨rfl, rfl⟩

/-- C7 counterexample: `logout` removes only `@access_token`; from a
store holding both tokens it leaves the refresh token present,
contradicting the claim that both tokens become absent. -/
theorem c7_logout_leaves_refresh_token :
    logout seededStore = ⟨none, some "r"⟩ ∧
    (logout seededStore).refreshToken ≠ none := by
  refine ⟨by decide, by decide⟩

/-- C7 amended: every call to `logout` clears the access token in the
durable store and leaves the refresh token exactly as it was. -/
theorem c7_logout_clears_access_only (s : Store) :
    (logout s).accessToken = none ∧ (logout s).refreshToken = s.refreshToken :=
  ⟨rfl, rfl⟩

/-- C8: `logout` is idempotent — from every starting store state,
calling it twice leaves the same store as calling it once. -/
theorem c8_logout_idempotent (s : Store) :
    logout (logout s) = logout s :=
  rfl

/-- C9: for every outgoing request the stored access token is attached
as a bearer Authorization header when present; when absent, no
Authorization header is sent and the request still proceeds to the
server (an accepting server answers it) rather than being rejected
before being sent. -/
theorem c9_bearer_header_attached (s : Store) (env : Env) (p : String) :
    authHeader s = Option.map (fun t => "Bearer " ++ t) s.accessToken ∧
    (s.accessToken = none → env.server none = .ok p →
      execute env s = ⟨.ok p, s, 0⟩) := by
  obtain ⟨a, rfT⟩ := s
  constructor
  · cases a <;> rfl
  · intro ha hok
    change a = none at ha
    subst ha
    exact execute_ok env ⟨none, rfT⟩ p (by rw [authHeader_none]; exact hok)

/-- C9 witness: with no access token stored, the header is absent and
an anonymous request succeeds against an accepting server. -/
theorem c9_bearer_header_attached_witness :
    authHeader ⟨none, none⟩ = none ∧
    execute anonOkEnv ⟨none, none⟩ = ⟨.ok "anon", ⟨none, none⟩, 0⟩ :=
  ⟨(c9_bearer_header_attached ⟨none, none⟩ anonOkEnv "anon").1,
    (c9_bearer_header_attached ⟨none, none⟩ anonOkEnv "anon").2 rfl rfl⟩

/-- C10: a 401 with no refresh token in storage makes
`refreshAuthToken` throw `'No refresh token available'` before any
network call; the interceptor then removes both token keys and the
caller receives that thrown error — not the original 401 rejection and
not a distinct SessionExpired outcome. -/
theorem c10_missing_refresh_token_throws (env : Env) (s : Store)
    (hrt : s.refreshToken = none)
    (hold : env.server (authHeader s) = .err 401) :
    execute env s = ⟨.thrown "No refresh token available", emptyStore, 0⟩ ∧
    (Outcome.thrown "No refresh token available" ≠ .errResp 401) ∧
    (Outcome.thrown "No refresh token available" ≠ .sessionExpired) := by
  obtain ⟨a, rfT⟩ := s
  change rfT = none at hrt
  subst hrt
  refine ⟨?_, by decide, by decide⟩
  rw [execute_err env ⟨a, none⟩ 401 hold, responseErrorInterceptor_401]
  unfold refreshAndRetry
  rw [refreshAuthToken_none env.refreshServer a]

/-- C10 witness: the theorem applied to the always-rejecting backend
with an access token but no refresh token stored. -/
theorem c10_missing_refresh_token_throws_witness :
    execute always401Env ⟨some "a", none⟩ =
      ⟨.thrown "No refresh token available", emptyStore, 0⟩ ∧
    (Outcome.thrown "No refresh token available" ≠ .errResp 401) ∧
    (Outcome.thrown "No refresh token available" ≠ .sessionExpired) :=
  c10_missing_refresh_token_throws always401Env ⟨some "a", none⟩ rfl rfl

end ExpoMoney
